import Mathlib

/-!
Verification of the olm session core (`src/session.cpp`) against its
natural-language specification.

The session code under `src/` is embedded faithfully below.  The
collaborators it consumes (Curve25519 primitives, the prekey-message codec,
the ratchet, the account store and the field-level pickle codecs) are not
part of the sources; each of their definitions is modelled from the spec and
carries a doc comment saying so.  Bytes are modelled as `Nat` values below
256 inside `List Nat` buffers; `size_t` results are `Nat` with the all-ones
failure sentinel modelled explicitly.
-/

namespace olm

set_option maxRecDepth 100000

/-- The `std::size_t(-1)` all-ones sentinel returned by failing operations,
on a 64-bit platform. -/
def SIZE_MAX : Nat := 2 ^ 64 - 1

/-- `KEY_LENGTH` from session.cpp. -/
def KEY_LENGTH : Nat := 32

/-- `PROTOCOL_VERSION` (0x3) from session.cpp. -/
def PROTOCOL_VERSION : Nat := 3

/-- Little-endian base-256 digits of `n`, exactly `w` bytes. -/
def toBytesLE : Nat → Nat → List Nat
  | 0, _ => []
  | w + 1, n => n % 256 :: toBytesLE w (n / 256)

/-- Read a little-endian base-256 byte list back as a number. -/
def ofBytesLE : List Nat → Nat
  | [] => 0
  | b :: rest => b + 256 * ofBytesLE rest

/-- Modelled from the spec: the Curve25519 field prime `2^255 - 19`
(the `crypto` collaborator is not in the sources). -/
def curveP : Nat := 2 ^ 255 - 19

/-- A 32-byte Curve25519 public key (`olm::Curve25519PublicKey`). -/
structure Curve25519PublicKey where
  public_key : List Nat
deriving DecidableEq, Repr

/-- A Curve25519 key pair; as in the sources' layout, a key pair extends a
public key with the 32-byte private scalar (`olm::Curve25519KeyPair`). -/
structure Curve25519KeyPair extends Curve25519PublicKey where
  private_key : List Nat
deriving DecidableEq, Repr

/-- Modelled from the spec: Curve25519 scalar clamping — clear bits 0,1,2 of
byte 0, clear bit 7 and set bit 6 of byte 31. -/
def clamp (seed : List Nat) : List Nat :=
  ((seed.set 0 ((seed.getD 0 0) &&& 248)).set 31
    (((seed.getD 31 0) &&& 127) ||| 64))

/-- Modelled from the spec: `generate_key(seed[32]) → KeyPair`; the private
scalar is the clamped seed and the public key is scalar multiplication of the
base point.  The curve group is modelled as the additive group of integers
mod `curveP` (written multiplicatively: `pub = priv * 9 mod p`), which has
the same abelian scalar-multiplication structure as the X25519 subgroup. -/
def generate_key (random : List Nat) : Curve25519KeyPair :=
  let priv := clamp (random.take 32)
  { public_key := toBytesLE 32 (ofBytesLE priv * 9 % curveP)
    private_key := priv }

/-- Modelled from the spec: `shared_secret(private, public) → 32 bytes`,
standard X25519 (`olm::curve25519_shared_secret`).  In the modelled group the
shared secret is the public-key group element scaled by the private scalar. -/
def curve25519_shared_secret (our_key : Curve25519KeyPair)
    (their_key : Curve25519PublicKey) : List Nat :=
  toBytesLE 32 (ofBytesLE our_key.private_key * ofBytesLE their_key.public_key % curveP)

/-- `olm::IdentityKey` as the session stores it: a numeric id plus the public
Curve25519 key (per the spec's data model the session holds the public half). -/
structure IdentityKey where
  id : Nat
  key : Curve25519PublicKey
deriving DecidableEq, Repr

/-- `olm::RemoteKey`: the peer's advertised public key with its numeric id. -/
structure RemoteKey where
  id : Nat
  key : Curve25519PublicKey
deriving DecidableEq, Repr

/-- Modelled from the spec: `LocalKey`, a one-time key pair held by the
account collaborator (`account.hh` is not in the sources). -/
structure LocalKey where
  id : Nat
  key : Curve25519KeyPair
deriving DecidableEq, Repr

/-- Modelled from the spec: the account collaborator provides an identity
key pair with id, and one-time key lookup by id. -/
structure Account where
  identity_key : LocalKey
  one_time_keys : List LocalKey
deriving DecidableEq, Repr

/-- Modelled from the spec: `lookup_key(id) → Option<LocalKey>`. -/
def Account.lookup_key (a : Account) (id : Nat) : Option LocalKey :=
  a.one_time_keys.find? (fun k => k.id == id)

/-- Fuel-driven little-endian base-128 varint encoder. -/
def encodeVarintFuel : Nat → Nat → List Nat
  | 0, _ => []
  | fuel + 1, n =>
    if n < 128 then [n] else (n % 128 + 128) :: encodeVarintFuel fuel (n / 128)

/-- Modelled from the spec: little-endian base-128 varint encoding used for
lengths and the one-time-key id in the prekey envelope. -/
def encodeVarint (n : Nat) : List Nat := encodeVarintFuel (n + 1) n

/-- Modelled from the spec: varint decoding; bytes with the high bit set
continue the value. -/
def parseVarint : List Nat → Option (Nat × List Nat)
  | [] => none
  | b :: rest =>
    if b < 128 then some (b, rest)
    else match parseVarint rest with
      | some (v, rest2) => some (b % 128 + 128 * v, rest2)
      | none => none

/-- A length-prefixed field: varint length followed by the bytes. -/
def lenPrefix (data : List Nat) : List Nat := encodeVarint data.length ++ data

/-- Modelled from the spec: parse a length-prefixed field against the
remaining bytes; fails if the declared length overruns the buffer. -/
def parseLenPrefixed (bytes : List Nat) : Option (List Nat × List Nat) :=
  match parseVarint bytes with
  | none => none
  | some (len, rest) =>
    if len ≤ rest.length then some (rest.take len, rest.drop len) else none

/-- `olm::PreKeyMessageReader`: pointer fields are modelled as `Option`
byte lists (`none` is the null pointer). -/
structure PreKeyMessageReader where
  version : Nat
  one_time_key_id : Nat
  has_one_time_key_id : Bool
  identity_key : Option (List Nat)
  base_key : Option (List Nat)
  message : Option (List Nat)
deriving DecidableEq, Repr

/-- The reader produced for malformed input: all pointers null, flags false. -/
def emptyReader : PreKeyMessageReader :=
  { version := 0, one_time_key_id := 0, has_one_time_key_id := false
    identity_key := none, base_key := none, message := none }

/-- Modelled from the spec: decode the prekey envelope — protocol version
byte, one-time-key id varint, then length-prefixed base key, identity key and
inner message; malformed input leaves all pointer fields null and all flags
false (`decode_one_time_key_message`, message.cpp is not in the sources). -/
def decode_one_time_key_message (bytes : List Nat) : PreKeyMessageReader :=
  match bytes with
  | [] => emptyReader
  | v :: r0 =>
    match parseVarint r0 with
    | none => emptyReader
    | some (id, r1) =>
      match parseLenPrefixed r1 with
      | none => emptyReader
      | some (base, r2) =>
        match parseLenPrefixed r2 with
        | none => emptyReader
        | some (ident, r3) =>
          match parseLenPrefixed r3 with
          | none => emptyReader
          | some (msg, _) =>
            { version := v, one_time_key_id := id, has_one_time_key_id := true
              identity_key := some ident, base_key := some base
              message := some msg }

/-- `check_message_fields` from session.cpp: identity key present with length
32, message present, base key present with length 32, id flag set. -/
def check_message_fields (reader : PreKeyMessageReader) : Bool :=
  reader.identity_key.isSome &&
  (reader.identity_key.getD []).length == KEY_LENGTH &&
  reader.message.isSome &&
  reader.base_key.isSome &&
  (reader.base_key.getD []).length == KEY_LENGTH &&
  reader.has_one_time_key_id

/-- Modelled from the spec: encode the prekey envelope; the writer-slice
interface of `encode_one_time_key_message` plus the caller's `memcpy`s is
collapsed into one function taking the field bytes directly. -/
def encode_one_time_key_message (version id : Nat)
    (base identity body : List Nat) : List Nat :=
  version :: encodeVarint id ++ lenPrefix base ++ lenPrefix identity ++ lenPrefix body

/-- Modelled from the spec: `encode_one_time_key_message_length`, a pure
function of the id and the field lengths. -/
def encode_one_time_key_message_length
    (id identity_key_length base_key_length body_length : Nat) : Nat :=
  1 + (encodeVarint id).length +
  (encodeVarint base_key_length).length + base_key_length +
  (encodeVarint identity_key_length).length + identity_key_length +
  (encodeVarint body_length).length + body_length

/-- Error codes of the session core (`olm::ErrorCode`). -/
inductive ErrorCode where
  | SUCCESS
  | NOT_ENOUGH_RANDOM
  | OUTPUT_BUFFER_TOO_SMALL
  | BAD_MESSAGE_VERSION
  | BAD_MESSAGE_FORMAT
  | BAD_MESSAGE_MAC
  | BAD_MESSAGE_KEY_ID
deriving DecidableEq, Repr

/-- `olm::MessageType`: prekey-wrapped or bare ratchet message. -/
inductive MessageType where
  | PRE_KEY
  | MESSAGE
deriving DecidableEq, Repr

/-- Which side initialised the embedded ratchet. -/
inductive RatchetRole where
  | uninitialised
  | alice
  | bob
deriving DecidableEq, Repr

/-- Names of the stack buffers of secret material that the initiation
operations may zeroise (`olm::unset` targets in session.cpp). -/
inductive SecretBuf where
  | base_key
  | ratchet_key
  | shared_secret
deriving DecidableEq, Repr

/-- Modelled from the spec: the ratchet collaborator's state, abstracted to
the data the session hands it — the handshake secret it was initialised
with, the current ratchet key halves, which side initialised it, a counter
that advances on encrypt/decrypt, and its own `last_error`. -/
structure Ratchet where
  role : RatchetRole
  root_key : List Nat
  ratchet_pub : List Nat
  ratchet_priv : List Nat
  counter : Nat
  last_error : ErrorCode
deriving DecidableEq, Repr

/-- Modelled from the spec: `ratchet_cipher.mac_length()`, a constant of the
cipher contract. -/
def Ratchet.mac_length : Nat := 8

/-- Modelled from the spec: `encrypt_random_length()` of the ratchet. -/
def Ratchet.encrypt_random_length (_r : Ratchet) : Nat := 32

/-- Modelled from the spec: `encrypt_output_length(plain_len)` — version
byte, length-prefixed 32-byte ratchet key, length-prefixed ciphertext and
MAC trailer of the modelled ratchet wire format. -/
def Ratchet.encrypt_output_length (_r : Ratchet) (plaintext_length : Nat) : Nat :=
  1 + 33 + (encodeVarint plaintext_length).length + plaintext_length +
    Ratchet.mac_length

/-- Modelled from the spec: the wire form of a (bare) ratchet message —
version byte, length-prefixed ratchet key, length-prefixed ciphertext,
MAC trailer (`encode_message`, message.cpp is not in the sources). -/
def encode_message (ratchet_key ciphertext : List Nat) : List Nat :=
  PROTOCOL_VERSION :: lenPrefix ratchet_key ++ lenPrefix ciphertext ++
    List.replicate Ratchet.mac_length 0

/-- `olm::MessageReader` restricted to the fields the session reads. -/
structure MessageReader where
  ratchet_key : Option (List Nat)
deriving DecidableEq, Repr

/-- Modelled from the spec: `decode_message(reader, bytes, mac_length)`
populates the ratchet key; the session reads only that field.  The MAC
trailer is excluded from parsing via the supplied `mac_length`. -/
def decode_message (bytes : List Nat) (mac_length : Nat) : MessageReader :=
  if bytes.length < mac_length then { ratchet_key := none }
  else
    match bytes.take (bytes.length - mac_length) with
    | [] => { ratchet_key := none }
    | _v :: rest =>
      match parseLenPrefixed rest with
      | none => { ratchet_key := none }
      | some (rk, _) => { ratchet_key := some rk }

/-- Modelled from the spec: `initialise_as_alice(secret, secret_length,
ratchet_key_pair)` — Alice keeps the freshly generated ratchet key pair. -/
def Ratchet.initialise_as_alice (r : Ratchet) (secret : List Nat)
    (secret_length : Nat) (ratchet_key : Curve25519KeyPair) : Ratchet :=
  { r with role := RatchetRole.alice
           root_key := secret.take secret_length
           ratchet_pub := ratchet_key.public_key
           ratchet_priv := ratchet_key.private_key
           counter := 0 }

/-- Modelled from the spec: `initialise_as_bob(secret, secret_length,
ratchet_public_key)` — Bob holds only the peer's ratchet public key. -/
def Ratchet.initialise_as_bob (r : Ratchet) (secret : List Nat)
    (secret_length : Nat) (ratchet_key : Curve25519PublicKey) : Ratchet :=
  { r with role := RatchetRole.bob
           root_key := secret.take secret_length
           ratchet_pub := ratchet_key.public_key
           ratchet_priv := []
           counter := 0 }

/-- Modelled from the spec: `ratchet.encrypt(plain, random, out)`; fails
with `NOT_ENOUGH_RANDOM` or `OUTPUT_BUFFER_TOO_SMALL`, otherwise advances
the ratchet and emits a wire message. -/
def Ratchet.encrypt (r : Ratchet) (plaintext random : List Nat)
    (message_length : Nat) : Ratchet × Nat × List Nat :=
  if random.length < r.encrypt_random_length then
    ({ r with last_error := ErrorCode.NOT_ENOUGH_RANDOM }, SIZE_MAX, [])
  else if message_length < r.encrypt_output_length plaintext.length then
    ({ r with last_error := ErrorCode.OUTPUT_BUFFER_TOO_SMALL }, SIZE_MAX, [])
  else
    ({ r with counter := (r.counter + 1) % 2 ^ 32 },
     r.encrypt_output_length plaintext.length,
     encode_message r.ratchet_pub plaintext)

/-- Modelled from the spec: `ratchet.decrypt(bytes, out)`; fails with
`BAD_MESSAGE_MAC` on a short (unauthenticable) input or
`OUTPUT_BUFFER_TOO_SMALL`, otherwise advances the ratchet. -/
def Ratchet.decrypt (r : Ratchet) (input : List Nat)
    (max_plaintext_length : Nat) : Ratchet × Nat :=
  if input.length < Ratchet.mac_length then
    ({ r with last_error := ErrorCode.BAD_MESSAGE_MAC }, SIZE_MAX)
  else if max_plaintext_length < input.length - Ratchet.mac_length then
    ({ r with last_error := ErrorCode.OUTPUT_BUFFER_TOO_SMALL }, SIZE_MAX)
  else
    ({ r with counter := (r.counter + 1) % 2 ^ 32 },
     input.length - Ratchet.mac_length)

/-- Modelled from the spec: `ratchet.decrypt_max_plaintext_length(bytes)`,
a bound computation that does not advance the ratchet. -/
def Ratchet.decrypt_max_plaintext_length (r : Ratchet) (input : List Nat) :
    Ratchet × Nat :=
  if input.length < Ratchet.mac_length then
    ({ r with last_error := ErrorCode.BAD_MESSAGE_MAC }, SIZE_MAX)
  else (r, input.length - Ratchet.mac_length)

/-- `olm::Session`: the embedded ratchet, the transient `last_error`, the
`received_message` latch and the three handshake identifiers. -/
structure Session where
  ratchet : Ratchet
  last_error : ErrorCode
  received_message : Bool
  alice_identity_key : IdentityKey
  alice_base_key : Curve25519PublicKey
  bob_one_time_key_id : Nat
deriving DecidableEq, Repr

/-- `new_outbound_session_random_length`: two 32-byte seeds. -/
def Session.new_outbound_session_random_length : Nat := KEY_LENGTH * 2

/-- `olm::Session::new_outbound_session` (session.cpp:59).  In addition to
the updated session and the returned size, the embedding reports which
secret stack buffers were zeroised (`olm::unset`) before returning. -/
def Session.new_outbound_session (s : Session) (local_account : Account)
    (identity_key : Curve25519PublicKey) (one_time_key : RemoteKey)
    (random : List Nat) : Session × Nat × List SecretBuf :=
  if random.length < Session.new_outbound_session_random_length then
    ({ s with last_error := ErrorCode.NOT_ENOUGH_RANDOM }, SIZE_MAX, [])
  else
    let base_key := generate_key random
    let ratchet_key := generate_key (random.drop 32)
    let s1 : Session :=
      { s with received_message := false
               alice_identity_key :=
                 { id := local_account.identity_key.id
                   key := local_account.identity_key.key.toCurve25519PublicKey }
               alice_base_key := base_key.toCurve25519PublicKey
               bob_one_time_key_id := one_time_key.id }
    let shared_secret :=
      curve25519_shared_secret local_account.identity_key.key one_time_key.key ++
      curve25519_shared_secret base_key identity_key ++
      curve25519_shared_secret base_key one_time_key.key
    ({ s1 with ratchet := s1.ratchet.initialise_as_alice shared_secret 96 ratchet_key },
     0,
     [SecretBuf.base_key, SecretBuf.ratchet_key, SecretBuf.shared_secret])

/-- `olm::Session::new_inbound_session` (session.cpp:121).  The three
handshake identifiers are stored before the one-time-key lookup, exactly as
in the source; the zeroised-buffer list reports the `olm::unset` calls made
before returning (the source makes none in this function). -/
def Session.new_inbound_session (s : Session) (local_account : Account)
    (one_time_key_message : List Nat) : Session × Nat × List SecretBuf :=
  let reader := decode_one_time_key_message one_time_key_message
  if ¬ check_message_fields reader then
    ({ s with last_error := ErrorCode.BAD_MESSAGE_FORMAT }, SIZE_MAX, [])
  else
    let message_reader :=
      decode_message (reader.message.getD []) Ratchet.mac_length
    if message_reader.ratchet_key.isNone ∨
        (message_reader.ratchet_key.getD []).length ≠ KEY_LENGTH then
      ({ s with last_error := ErrorCode.BAD_MESSAGE_FORMAT }, SIZE_MAX, [])
    else
      let s1 : Session :=
        { s with alice_identity_key :=
                   { s.alice_identity_key with
                       key := { public_key := reader.identity_key.getD [] } }
                 alice_base_key := { public_key := reader.base_key.getD [] }
                 bob_one_time_key_id := reader.one_time_key_id }
      let ratchet_key : Curve25519PublicKey :=
        { public_key := message_reader.ratchet_key.getD [] }
      match local_account.lookup_key s1.bob_one_time_key_id with
      | none => ({ s1 with last_error := ErrorCode.BAD_MESSAGE_KEY_ID }, SIZE_MAX, [])
      | some bob_one_time_key =>
        let shared_secret :=
          curve25519_shared_secret bob_one_time_key.key s1.alice_identity_key.key ++
          curve25519_shared_secret local_account.identity_key.key s1.alice_base_key ++
          curve25519_shared_secret bob_one_time_key.key s1.alice_base_key
        ({ s1 with ratchet := s1.ratchet.initialise_as_bob shared_secret 96 ratchet_key },
         0, [])

/-- `olm::Session::matches_inbound_session` (session.cpp:178); the session
is returned unchanged alongside the boolean, mirroring that the source makes
no assignment to any member. -/
def Session.matches_inbound_session (s : Session) (one_time_key_message : List Nat) :
    Session × Bool :=
  let reader := decode_one_time_key_message one_time_key_message
  if ¬ check_message_fields reader then (s, false)
  else
    (s,
     (reader.identity_key.getD [] == s.alice_identity_key.key.public_key) &&
     (reader.base_key.getD [] == s.alice_base_key.public_key) &&
     (reader.one_time_key_id == s.bob_one_time_key_id))

/-- `olm::Session::encrypt_message_type` (session.cpp:200). -/
def Session.encrypt_message_type (s : Session) : MessageType :=
  if s.received_message then MessageType.MESSAGE else MessageType.PRE_KEY

/-- `olm::Session::encrypt_message_length` (session.cpp:209). -/
def Session.encrypt_message_length (s : Session) (plaintext_length : Nat) : Nat :=
  let message_length := s.ratchet.encrypt_output_length plaintext_length
  if s.received_message then message_length
  else
    encode_one_time_key_message_length s.bob_one_time_key_id
      KEY_LENGTH KEY_LENGTH message_length

/-- `olm::Session::encrypt_random_length` (session.cpp:229). -/
def Session.encrypt_random_length (s : Session) : Nat :=
  s.ratchet.encrypt_random_length

/-- `olm::Session::encrypt` (session.cpp:234): checks the output buffer
size, wraps the ratchet output in the prekey envelope while the session has
not latched, and copies a ratchet error into `last_error` (resetting the
ratchet's own) when the ratchet fails. -/
def Session.encrypt (s : Session) (plaintext random : List Nat)
    (message_length : Nat) : Session × Nat × List Nat :=
  if message_length < s.encrypt_message_length plaintext.length then
    ({ s with last_error := ErrorCode.OUTPUT_BUFFER_TOO_SMALL }, SIZE_MAX, [])
  else
    let message_body_length := s.ratchet.encrypt_output_length plaintext.length
    let er := s.ratchet.encrypt plaintext random message_body_length
    let out :=
      if s.received_message then er.2.2
      else
        encode_one_time_key_message PROTOCOL_VERSION s.bob_one_time_key_id
          s.alice_base_key.public_key s.alice_identity_key.key.public_key er.2.2
    if er.2.1 = SIZE_MAX then
      ({ s with ratchet := { er.1 with last_error := ErrorCode.SUCCESS }
                last_error := er.1.last_error }, SIZE_MAX, out)
    else
      ({ s with ratchet := er.1 }, er.2.1, out)

/-- `olm::Session::decrypt_max_plaintext_length` (session.cpp:284). -/
def Session.decrypt_max_plaintext_length (s : Session) (message_type : MessageType)
    (message : List Nat) : Session × Nat :=
  let body? : Option (List Nat) :=
    match message_type with
    | MessageType.MESSAGE => some message
    | MessageType.PRE_KEY => (decode_one_time_key_message message).message
  match body? with
  | none => ({ s with last_error := ErrorCode.BAD_MESSAGE_FORMAT }, SIZE_MAX)
  | some body =>
    let dr := s.ratchet.decrypt_max_plaintext_length body
    if dr.2 = SIZE_MAX then
      ({ s with ratchet := { dr.1 with last_error := ErrorCode.SUCCESS }
                last_error := dr.1.last_error }, SIZE_MAX)
    else
      ({ s with ratchet := dr.1 }, dr.2)

/-- `olm::Session::decrypt` (session.cpp:316): unwraps the prekey envelope
when needed, delegates to the ratchet, copies ratchet errors into
`last_error` on failure and latches `received_message` on success. -/
def Session.decrypt (s : Session) (message_type : MessageType)
    (message : List Nat) (max_plaintext_length : Nat) : Session × Nat :=
  let body? : Option (List Nat) :=
    match message_type with
    | MessageType.MESSAGE => some message
    | MessageType.PRE_KEY => (decode_one_time_key_message message).message
  match body? with
  | none => ({ s with last_error := ErrorCode.BAD_MESSAGE_FORMAT }, SIZE_MAX)
  | some body =>
    let dr := s.ratchet.decrypt body max_plaintext_length
    if dr.2 = SIZE_MAX then
      ({ s with ratchet := { dr.1 with last_error := ErrorCode.SUCCESS }
                last_error := dr.1.last_error }, SIZE_MAX)
    else
      ({ s with ratchet := dr.1, received_message := true }, dr.2)

/-- A key pair whose public half is derived from its private scalar in the
modelled curve group. -/
def wfPair (kp : Curve25519KeyPair) : Prop :=
  kp.public_key = toBytesLE 32 (ofBytesLE kp.private_key * 9 % curveP)

instance (kp : Curve25519KeyPair) : Decidable (wfPair kp) := by
  unfold wfPair; infer_instance

/-- The three handshake identifiers of a session, as one tuple. -/
def handshakeIds (s : Session) : List Nat × List Nat × Nat :=
  (s.alice_identity_key.key.public_key, s.alice_base_key.public_key,
   s.bob_one_time_key_id)

/-- Concrete 32-byte buffers used as witness inputs. -/
def bytesA : List Nat := List.replicate 32 1

/-- A second concrete 32-byte buffer. -/
def bytesB : List Nat := List.replicate 32 2

/-- A third concrete 32-byte buffer. -/
def bytesC : List Nat := List.replicate 32 3

/-- A concrete key pair generated from `bytesA`. -/
def samplePairA : Curve25519KeyPair := generate_key bytesA

/-- A concrete key pair generated from `bytesC`. -/
def samplePairT : Curve25519KeyPair := generate_key bytesC

/-- A concrete account holding no one-time keys. -/
def sampleAccount : Account :=
  { identity_key := { id := 1, key := samplePairA }
    one_time_keys := [] }

/-- A concrete account holding the one-time key with id 77. -/
def acctWithKey : Account :=
  { identity_key := { id := 1, key := samplePairA }
    one_time_keys := [{ id := 77, key := samplePairT }] }

/-- A concrete remote public key. -/
def samplePub : Curve25519PublicKey := { public_key := bytesB }

/-- A concrete remote one-time key with id 42. -/
def sampleRemote : RemoteKey := { id := 42, key := { public_key := bytesC } }

/-- A concrete initialised ratchet state. -/
def sampleRatchet : Ratchet :=
  { role := RatchetRole.alice
    root_key := List.replicate 96 7
    ratchet_pub := bytesA
    ratchet_priv := bytesB
    counter := 5
    last_error := ErrorCode.SUCCESS }

/-- A concrete established session with a stale error latched. -/
def sampleSession : Session :=
  { ratchet := sampleRatchet
    last_error := ErrorCode.BAD_MESSAGE_MAC
    received_message := true
    alice_identity_key := { id := 3, key := { public_key := bytesA } }
    alice_base_key := { public_key := bytesB }
    bob_one_time_key_id := 42 }

/-- A concrete freshly constructed session. -/
def sampleSession0 : Session :=
  { ratchet :=
      { role := RatchetRole.uninitialised
        root_key := []
        ratchet_pub := []
        ratchet_priv := []
        counter := 0
        last_error := ErrorCode.SUCCESS }
    last_error := ErrorCode.SUCCESS
    received_message := false
    alice_identity_key := { id := 0, key := { public_key := [] } }
    alice_base_key := { public_key := [] }
    bob_one_time_key_id := 0 }

/-- The concrete one-time key stored in `acctWithKey`. -/
def botW : LocalKey := { id := 77, key := samplePairT }

/-- A concrete well-formed prekey message for one-time key id 77. -/
def m4 : List Nat :=
  encode_one_time_key_message PROTOCOL_VERSION 77 bytesC bytesC
    (encode_message bytesA [])

/-- A concrete prekey message whose envelope is well-formed but whose inner
message is too short to carry a ratchet key, driving the second
BAD_MESSAGE_FORMAT path of inbound initiation. -/
def m4b : List Nat :=
  encode_one_time_key_message PROTOCOL_VERSION 77 bytesC bytesC [9]

/-- A concrete well-formed prekey message matching `sampleSession`. -/
def m6 : List Nat :=
  encode_one_time_key_message PROTOCOL_VERSION 42 bytesB bytesA [7]

/-- A concrete 16-byte bare ratchet message. -/
def m9 : List Nat := List.replicate 16 1

/-- 64 bytes of concrete randomness. -/
def r64 : List Nat := List.replicate 64 0

/-- 32 bytes of concrete randomness. -/
def r32 : List Nat := List.replicate 32 0

theorem toBytesLE_length : ∀ (w n : Nat), (toBytesLE w n).length = w
  | 0, _ => rfl
  | w + 1, n => by simp [toBytesLE, toBytesLE_length w]

theorem ofBytesLE_toBytesLE : ∀ (w n : Nat), ofBytesLE (toBytesLE w n) = n % 256 ^ w
  | 0, n => by simp [toBytesLE, ofBytesLE]; omega
  | w + 1, n => by
    show n % 256 + 256 * ofBytesLE (toBytesLE w (n / 256)) = n % 256 ^ (w + 1)
    rw [ofBytesLE_toBytesLE w (n / 256), Nat.pow_succ,
        Nat.mul_comm (256 ^ w) 256, Nat.mod_mul]

theorem ofBytesLE_toBytesLE_of_lt {w n : Nat} (h : n < 256 ^ w) :
    ofBytesLE (toBytesLE w n) = n := by
  rw [ofBytesLE_toBytesLE, Nat.mod_eq_of_lt h]

theorem curveP_pos : 0 < curveP := by decide

theorem curveP_lt : curveP < 256 ^ 32 := by decide

theorem generate_key_wf (seed : List Nat) : wfPair (generate_key seed) := rfl

theorem shared_secret_comm (k1 k2 : Curve25519KeyPair)
    (h1 : wfPair k1) (h2 : wfPair k2) :
    curve25519_shared_secret k1 k2.toCurve25519PublicKey =
      curve25519_shared_secret k2 k1.toCurve25519PublicKey := by
  unfold curve25519_shared_secret
  have e2 : k2.toCurve25519PublicKey.public_key = k2.public_key := rfl
  have e1 : k1.toCurve25519PublicKey.public_key = k1.public_key := rfl
  rw [e1, e2, h1, h2,
      ofBytesLE_toBytesLE_of_lt
        (Nat.lt_of_lt_of_le (Nat.mod_lt _ curveP_pos) (Nat.le_of_lt curveP_lt)),
      ofBytesLE_toBytesLE_of_lt
        (Nat.lt_of_lt_of_le (Nat.mod_lt _ curveP_pos) (Nat.le_of_lt curveP_lt))]
  congr 1
  rw [Nat.mul_mod_mod, Nat.mul_mod_mod]
  congr 1
  ring

theorem parseVarint_encodeVarintFuel :
    ∀ (fuel n : Nat) (rest : List Nat), n < 128 ^ (fuel + 1) →
      parseVarint (encodeVarintFuel (fuel + 1) n ++ rest) = some (n, rest) := by
  intro fuel
  induction fuel with
  | zero =>
    intro n rest h
    have hn : n < 128 := by simpa using h
    simp [encodeVarintFuel, hn, parseVarint]
  | succ f ih =>
    intro n rest h
    by_cases hn : n < 128
    · simp [encodeVarintFuel, hn, parseVarint]
    · have hb : ¬ (n % 128 + 128 < 128) := by omega
      have hdiv : n / 128 < 128 ^ (f + 1) := by
        rw [Nat.div_lt_iff_lt_mul (by norm_num : (0 : Nat) < 128)]
        calc n < 128 ^ (f + 1 + 1) := h
          _ = 128 ^ (f + 1) * 128 := by rw [Nat.pow_succ]
      have ihh := ih (n / 128) rest hdiv
      show parseVarint ((if n < 128 then [n]
          else (n % 128 + 128) :: encodeVarintFuel (f + 1) (n / 128)) ++ rest) =
        some (n, rest)
      rw [if_neg hn, List.cons_append]
      simp only [parseVarint]
      rw [if_neg hb, ihh]
      have hv : n % 128 + 128 * (n / 128) = n := by omega
      simp [hv, Nat.add_mod_right]

theorem parseVarint_encodeVarint (n : Nat) (rest : List Nat) :
    parseVarint (encodeVarint n ++ rest) = some (n, rest) := by
  have h1 : n < 128 ^ n := Nat.lt_pow_self (by norm_num) n
  exact parseVarint_encodeVarintFuel n n rest
    (Nat.lt_of_lt_of_le h1 (Nat.pow_le_pow_right (by norm_num) (Nat.le_succ n)))

theorem parseLenPrefixed_lenPrefix (data rest : List Nat) :
    parseLenPrefixed (lenPrefix data ++ rest) = some (data, rest) := by
  unfold parseLenPrefixed lenPrefix
  rw [List.append_assoc, parseVarint_encodeVarint]
  have hle : data.length ≤ (data ++ rest).length := by simp
  simp [hle, List.take_left, List.drop_left]

theorem parseLenPrefixed_lenPrefix_nil (data : List Nat) :
    parseLenPrefixed (lenPrefix data) = some (data, []) := by
  have h := parseLenPrefixed_lenPrefix data []
  simpa using h

theorem decode_encode (v id : Nat) (base ident body : List Nat) :
    decode_one_time_key_message (encode_one_time_key_message v id base ident body) =
      { version := v, one_time_key_id := id, has_one_time_key_id := true
        identity_key := some ident, base_key := some base, message := some body } := by
  unfold encode_one_time_key_message
  simp [decode_one_time_key_message, List.append_assoc,
    parseVarint_encodeVarint, parseLenPrefixed_lenPrefix, parseLenPrefixed_lenPrefix_nil]

theorem decode_message_encode_message (rk ct : List Nat) :
    decode_message (encode_message rk ct) Ratchet.mac_length =
      { ratchet_key := some rk } := by
  have he : encode_message rk ct =
      (PROTOCOL_VERSION :: (lenPrefix rk ++ lenPrefix ct)) ++
        List.replicate Ratchet.mac_length 0 := by
    simp [encode_message]
  have hlen : (encode_message rk ct).length =
      (PROTOCOL_VERSION :: (lenPrefix rk ++ lenPrefix ct)).length +
        Ratchet.mac_length := by
    rw [he]; simp; omega
  unfold decode_message
  rw [if_neg (by omega)]
  have hn : (encode_message rk ct).length - Ratchet.mac_length =
      (PROTOCOL_VERSION :: (lenPrefix rk ++ lenPrefix ct)).length := by omega
  rw [hn, he]
  rw [List.take_left]
  simp [parseLenPrefixed_lenPrefix]

/-- One host-level call on an established session, for stating lifecycle
properties over call sequences. -/
inductive SessionOp where
  | encryptOp (plaintext random : List Nat) (message_length : Nat)
  | decryptOp (message_type : MessageType) (message : List Nat) (max_plaintext_length : Nat)
  | decryptMaxOp (message_type : MessageType) (message : List Nat)
deriving DecidableEq, Repr

/-- Apply one operation; the boolean reports whether the operation was a
decrypt call that succeeded. -/
def stepOp (s : Session) : SessionOp → Session × Bool
  | SessionOp.encryptOp p r l => ((s.encrypt p r l).1, false)
  | SessionOp.decryptOp t m l =>
    let dr := s.decrypt t m l
    (dr.1, dr.2 != SIZE_MAX)
  | SessionOp.decryptMaxOp t m => ((s.decrypt_max_plaintext_length t m).1, false)

/-- Run a list of operations; the boolean reports whether any decrypt call
in the trace succeeded. -/
def runOps (s : Session) : List SessionOp → Session × Bool
  | [] => (s, false)
  | op :: rest =>
    let st := stepOp s op
    let r := runOps st.1 rest
    (r.1, st.2 || r.2)

/-- Modelled from the spec: one-byte encoding of a bool field
(pickle.hh is not in the sources). -/
def pickle_bool (b : Bool) : List Nat := [if b then 1 else 0]

/-- Modelled from the spec: read back a bool field. -/
def unpickle_bool : List Nat → Option (Bool × List Nat)
  | [] => none
  | x :: rest => some (x != 0, rest)

/-- Modelled from the spec: big-endian 4-byte encoding of a 32-bit field. -/
def pickle_u32 (n : Nat) : List Nat :=
  [n / 16777216 % 256, n / 65536 % 256, n / 256 % 256, n % 256]

/-- Modelled from the spec: read back a 32-bit field. -/
def unpickle_u32 : List Nat → Option (Nat × List Nat)
  | b0 :: b1 :: b2 :: b3 :: rest =>
    some (((b0 * 256 + b1) * 256 + b2) * 256 + b3, rest)
  | _ => none

/-- Modelled from the spec: a public key is serialized as its raw 32 bytes. -/
def pickle_key (k : Curve25519PublicKey) : List Nat := k.public_key

/-- Modelled from the spec: read back a 32-byte public key. -/
def unpickle_key (bytes : List Nat) : Option (Curve25519PublicKey × List Nat) :=
  if 32 ≤ bytes.length then
    some ({ public_key := bytes.take 32 }, bytes.drop 32)
  else none

/-- Byte tag of a ratchet role. -/
def roleNum : RatchetRole → Nat
  | RatchetRole.uninitialised => 0
  | RatchetRole.alice => 1
  | RatchetRole.bob => 2

/-- Inverse of `roleNum`. -/
def numRole : Nat → RatchetRole
  | 1 => RatchetRole.alice
  | 2 => RatchetRole.bob
  | _ => RatchetRole.uninitialised

/-- Modelled from the spec: the ratchet collaborator's own serialization —
its persistent fields in a fixed order; the transient `last_error` is not
serialized. -/
def pickle_ratchet (r : Ratchet) : List Nat :=
  roleNum r.role :: lenPrefix r.root_key ++ lenPrefix r.ratchet_pub ++
    lenPrefix r.ratchet_priv ++ pickle_u32 r.counter

/-- Modelled from the spec: the ratchet's serialized length as a function of
its state. -/
def pickle_length_ratchet (r : Ratchet) : Nat :=
  1 + ((encodeVarint r.root_key.length).length + r.root_key.length) +
  ((encodeVarint r.ratchet_pub.length).length + r.ratchet_pub.length) +
  ((encodeVarint r.ratchet_priv.length).length + r.ratchet_priv.length) + 4

/-- Modelled from the spec: deserialize a ratchet into an existing value
(the reference-parameter style of the source); the transient `last_error`
of the target is untouched. -/
def unpickle_ratchet (bytes : List Nat) (value : Ratchet) :
    Option (Ratchet × List Nat) :=
  match bytes with
  | [] => none
  | rb :: b1 =>
    match parseLenPrefixed b1 with
    | none => none
    | some (root, b2) =>
      match parseLenPrefixed b2 with
      | none => none
      | some (pub, b3) =>
        match parseLenPrefixed b3 with
        | none => none
        | some (priv, b4) =>
          match unpickle_u32 b4 with
          | none => none
          | some (ctr, b5) =>
            some ({ value with
                      role := numRole rb
                      root_key := root
                      ratchet_pub := pub
                      ratchet_priv := priv
                      counter := ctr }, b5)

/-- Per-field serialized length of a bool. -/
def pickle_length_bool (_b : Bool) : Nat := 1

/-- Per-field serialized length of a 32-bit integer. -/
def pickle_length_u32 (_n : Nat) : Nat := 4

/-- Per-field serialized length of a 32-byte public key. -/
def pickle_length_key (_k : Curve25519PublicKey) : Nat := 32

/-- `olm::pickle_length(Session)` (session.cpp:351): the sum of the field
lengths, in the fixed order of serialization. -/
def pickle_length (value : Session) : Nat :=
  pickle_length_bool value.received_message +
  pickle_length_u32 value.alice_identity_key.id +
  pickle_length_key value.alice_identity_key.key +
  pickle_length_key value.alice_base_key +
  pickle_length_u32 value.bob_one_time_key_id +
  pickle_length_ratchet value.ratchet

/-- `olm::pickle(Session)` (session.cpp:365): fields serialized in the fixed
order received_message, alice_identity_key.id, alice_identity_key.key,
alice_base_key, bob_one_time_key_id, ratchet. -/
def pickle (value : Session) : List Nat :=
  pickle_bool value.received_message ++
  pickle_u32 value.alice_identity_key.id ++
  pickle_key value.alice_identity_key.key ++
  pickle_key value.alice_base_key ++
  pickle_u32 value.bob_one_time_key_id ++
  pickle_ratchet value.ratchet

/-- `olm::unpickle(Session)` (session.cpp:379): consumes the same field
order against a bounded cursor, writing into an existing session value, and
fails when the cursor would overrun the end of the buffer. -/
def unpickle (bytes : List Nat) (value : Session) : Option (Session × List Nat) :=
  match unpickle_bool bytes with
  | none => none
  | some (rm, b1) =>
    match unpickle_u32 b1 with
    | none => none
    | some (id, b2) =>
      match unpickle_key b2 with
      | none => none
      | some (ik, b3) =>
        match unpickle_key b3 with
        | none => none
        | some (bk, b4) =>
          match unpickle_u32 b4 with
          | none => none
          | some (otid, b5) =>
            match unpickle_ratchet b5 value.ratchet with
            | none => none
            | some (r, b6) =>
              some ({ value with
                        received_message := rm
                        alice_identity_key := { id := id, key := ik }
                        alice_base_key := bk
                        bob_one_time_key_id := otid
                        ratchet := r }, b6)

/-- Machine-width well-formedness of a session state: the bounds that hold
of any C++ `olm::Session` by the types of its fields (`uint32_t` ids and
counters, 32-byte key arrays). -/
def SessionWF (s : Session) : Prop :=
  s.alice_identity_key.id < 4294967296 ∧
  s.alice_identity_key.key.public_key.length = 32 ∧
  s.alice_base_key.public_key.length = 32 ∧
  s.bob_one_time_key_id < 4294967296 ∧
  s.ratchet.counter < 4294967296

instance (s : Session) : Decidable (SessionWF s) := by
  unfold SessionWF; infer_instance

theorem unpickle_bool_pickle_bool (b : Bool) (rest : List Nat) :
    unpickle_bool (pickle_bool b ++ rest) = some (b, rest) := by
  cases b <;> simp [pickle_bool, unpickle_bool]

theorem unpickle_u32_pickle_u32 (n : Nat) (rest : List Nat) (h : n < 4294967296) :
    unpickle_u32 (pickle_u32 n ++ rest) = some (n, rest) := by
  simp only [pickle_u32, List.cons_append, List.nil_append, unpickle_u32]
  congr 1
  congr 1
  omega

theorem unpickle_key_pickle_key (k : Curve25519PublicKey) (rest : List Nat)
    (h : k.public_key.length = 32) :
    unpickle_key (pickle_key k ++ rest) = some (k, rest) := by
  unfold unpickle_key pickle_key
  rw [if_pos (by simp [h])]
  rw [List.take_left' h, List.drop_left' h]

theorem numRole_roleNum (ro : RatchetRole) : numRole (roleNum ro) = ro := by
  cases ro <;> rfl

theorem unpickle_ratchet_pickle_ratchet (r value : Ratchet) (rest : List Nat)
    (h : r.counter < 4294967296) :
    unpickle_ratchet (pickle_ratchet r ++ rest) value =
      some ({ r with last_error := value.last_error }, rest) := by
  unfold pickle_ratchet unpickle_ratchet
  simp only [List.cons_append, List.append_assoc]
  simp [parseLenPrefixed_lenPrefix, unpickle_u32_pickle_u32 r.counter rest h,
        numRole_roleNum]

theorem unpickle_ratchet_pickle_ratchet_nil (r value : Ratchet)
    (h : r.counter < 4294967296) :
    unpickle_ratchet (pickle_ratchet r) value =
      some ({ r with last_error := value.last_error }, []) := by
  have e := unpickle_ratchet_pickle_ratchet r value [] h
  simpa using e

theorem pickle_ratchet_length (r : Ratchet) :
    (pickle_ratchet r).length = pickle_length_ratchet r := by
  simp [pickle_ratchet, pickle_length_ratchet, lenPrefix, pickle_u32]
  omega

theorem pickle_length_spec (S : Session) (h : SessionWF S) :
    pickle_length S = (pickle S).length := by
  obtain ⟨h1, h2, h3, h4, h5⟩ := h
  simp [pickle, pickle_length, pickle_bool, pickle_u32, pickle_key,
        pickle_length_bool, pickle_length_u32, pickle_length_key,
        pickle_ratchet_length, h2, h3]
  omega

theorem unpickle_pickle (S S0 : Session) (h : SessionWF S) :
    unpickle (pickle S) S0 =
      some ({ S0 with
                received_message := S.received_message
                alice_identity_key := S.alice_identity_key
                alice_base_key := S.alice_base_key
                bob_one_time_key_id := S.bob_one_time_key_id
                ratchet := { S.ratchet with last_error := S0.ratchet.last_error } },
            []) := by
  obtain ⟨h1, h2, h3, h4, h5⟩ := h
  unfold pickle unpickle
  simp [List.append_assoc, unpickle_bool_pickle_bool,
        unpickle_u32_pickle_u32 S.alice_identity_key.id _ h1,
        unpickle_u32_pickle_u32 S.bob_one_time_key_id _ h4,
        unpickle_key_pickle_key S.alice_identity_key.key _ h2,
        unpickle_key_pickle_key S.alice_base_key _ h3,
        unpickle_ratchet_pickle_ratchet_nil S.ratchet _ h5]

theorem new_outbound_session_run (s : Session) (acct : Account)
    (idk : Curve25519PublicKey) (otk : RemoteKey) (random : List Nat)
    (h : 64 ≤ random.length) :
    s.new_outbound_session acct idk otk random =
      ({ s with
           received_message := false
           alice_identity_key :=
             { id := acct.identity_key.id
               key := acct.identity_key.key.toCurve25519PublicKey }
           alice_base_key := (generate_key random).toCurve25519PublicKey
           bob_one_time_key_id := otk.id
           ratchet := s.ratchet.initialise_as_alice
             (curve25519_shared_secret acct.identity_key.key otk.key ++
              curve25519_shared_secret (generate_key random) idk ++
              curve25519_shared_secret (generate_key random) otk.key) 96
             (generate_key (random.drop 32)) },
       0, [SecretBuf.base_key, SecretBuf.ratchet_key, SecretBuf.shared_secret]) := by
  unfold Session.new_outbound_session
  rw [if_neg (by unfold Session.new_outbound_session_random_length KEY_LENGTH; omega)]

theorem shared_secret_length (k : Curve25519KeyPair) (p : Curve25519PublicKey) :
    (curve25519_shared_secret k p).length = 32 := by
  unfold curve25519_shared_secret
  exact toBytesLE_length 32 _

theorem triple_secret_take (a b c : List Nat) (ha : a.length = 32)
    (hb : b.length = 32) (hc : c.length = 32) :
    (a ++ b ++ c).take 96 = a ++ b ++ c :=
  List.take_of_length_le (by simp [ha, hb, hc])

/-- C5: `new_outbound_session` given fewer than 64 bytes of randomness
returns the all-ones sentinel with `last_error = NOT_ENOUGH_RANDOM` and
modifies nothing else: `received_message`, `alice_identity_key`,
`alice_base_key`, `bob_one_time_key_id` and the ratchet are unchanged. -/
theorem new_outbound_short_random (s : Session) (acct : Account)
    (idk : Curve25519PublicKey) (otk : RemoteKey) (random : List Nat)
    (h : random.length < 64) :
    (s.new_outbound_session acct idk otk random).2.1 = SIZE_MAX ∧
    (s.new_outbound_session acct idk otk random).1 =
      { s with last_error := ErrorCode.NOT_ENOUGH_RANDOM } := by
  unfold Session.new_outbound_session
  rw [if_pos (by unfold Session.new_outbound_session_random_length KEY_LENGTH; omega)]
  exact ⟨rfl, rfl⟩

/-- C7: `encrypt` with an output buffer shorter than
`encrypt_message_length` fails with the sentinel and
`OUTPUT_BUFFER_TOO_SMALL` before invoking the ratchet: the ratchet and all
other fields are unchanged. -/
theorem encrypt_short_buffer (s : Session) (plaintext random : List Nat)
    (message_length : Nat)
    (h : message_length < s.encrypt_message_length plaintext.length) :
    (s.encrypt plaintext random message_length).2.1 = SIZE_MAX ∧
    (s.encrypt plaintext random message_length).1 =
      { s with last_error := ErrorCode.OUTPUT_BUFFER_TOO_SMALL } := by
  unfold Session.encrypt
  rw [if_pos h]
  exact ⟨rfl, rfl⟩

/-- C8: `encrypt`, `decrypt` and `decrypt_max_plaintext_length` leave
`alice_identity_key.key.public_key`, `alice_base_key.public_key` and
`bob_one_time_key_id` unchanged on every call, successful or not, and
`matches_inbound_session` returns the session entirely unchanged
(`encrypt_message_length` is a pure function and touches no state). -/
theorem handshake_ids_immutable (s : Session) (p r m mm : List Nat)
    (l ml : Nat) (t : MessageType) :
    handshakeIds (s.encrypt p r l).1 = handshakeIds s ∧
    handshakeIds (s.decrypt t m ml).1 = handshakeIds s ∧
    handshakeIds (s.decrypt_max_plaintext_length t m).1 = handshakeIds s ∧
    (s.matches_inbound_session mm).1 = s := by
  refine ⟨?_, ?_, ?_, ?_⟩
  · unfold Session.encrypt
    split
    · rfl
    · dsimp only
      split <;> rfl
  · unfold Session.decrypt
    dsimp only
    split
    · rfl
    · split <;> rfl
  · unfold Session.decrypt_max_plaintext_length
    dsimp only
    split
    · rfl
    · split <;> rfl
  · unfold Session.matches_inbound_session
    dsimp only
    split <;> rfl

theorem stepOp_received (s : Session) (op : SessionOp) :
    (stepOp s op).1.received_message = (s.received_message || (stepOp s op).2) := by
  cases op with
  | encryptOp p r l =>
    simp only [stepOp, Bool.or_false]
    unfold Session.encrypt
    split
    · rfl
    · dsimp only
      split <;> rfl
  | decryptOp t m l =>
    simp only [stepOp]
    unfold Session.decrypt
    dsimp only
    split
    · simp
    · split
      · next hh => simp [hh]
      · next hh => simp [bne_iff_ne, hh]
  | decryptMaxOp t m =>
    simp only [stepOp, Bool.or_false]
    unfold Session.decrypt_max_plaintext_length
    dsimp only
    split
    · rfl
    · split <;> rfl

theorem runOps_received (s : Session) (ops : List SessionOp) :
    (runOps s ops).1.received_message = (s.received_message || (runOps s ops).2) := by
  induction ops generalizing s with
  | nil => simp [runOps]
  | cons op rest ih =>
    simp only [runOps]
    rw [ih, stepOp_received]
    cases s.received_message <;> cases (stepOp s op).2 <;> simp

/-- C2: over any sequence of encrypt, decrypt and
decrypt_max_plaintext_length calls, `received_message` of the resulting
session equals the initial flag OR-ed with whether some decrypt call in the
trace succeeded — so the flag is latched by the first successful decrypt and
never reset — and `encrypt_message_type` returns `MESSAGE` exactly when that
latch holds, `PRE_KEY` otherwise. -/
theorem message_type_latch (s : Session) (ops : List SessionOp) :
    (runOps s ops).1.received_message = (s.received_message || (runOps s ops).2) ∧
    (runOps s ops).1.encrypt_message_type =
      (if s.received_message || (runOps s ops).2 then MessageType.MESSAGE
       else MessageType.PRE_KEY) := by
  refine ⟨runOps_received s ops, ?_⟩
  unfold Session.encrypt_message_type
  rw [runOps_received s ops]

/-- C6: `matches_inbound_session` never modifies the session; it returns
`false` whenever the decoded prekey envelope fails `check_message_fields`,
and otherwise returns `true` iff the envelope's identity-key bytes equal
`alice_identity_key.key.public_key`, its base-key bytes equal
`alice_base_key.public_key` and its one-time-key id equals
`bob_one_time_key_id`. -/
theorem matches_inbound_session_spec (s : Session) (msg : List Nat) :
    (s.matches_inbound_session msg).1 = s ∧
    (check_message_fields (decode_one_time_key_message msg) = false →
      (s.matches_inbound_session msg).2 = false) ∧
    (check_message_fields (decode_one_time_key_message msg) = true →
      ((s.matches_inbound_session msg).2 = true ↔
        (decode_one_time_key_message msg).identity_key.getD [] =
            s.alice_identity_key.key.public_key ∧
        (decode_one_time_key_message msg).base_key.getD [] =
            s.alice_base_key.public_key ∧
        (decode_one_time_key_message msg).one_time_key_id =
            s.bob_one_time_key_id)) := by
  unfold Session.matches_inbound_session
  dsimp only
  refine ⟨?_, ?_, ?_⟩
  · split <;> rfl
  · intro h
    rw [if_pos (by simp [h])]
  · intro h
    rw [if_neg (by simp [h])]
    simp [Bool.and_eq_true, beq_iff_eq, and_assoc]

/-- C3: for every machine-width well-formed session state,
`pickle_length` equals the number of bytes `pickle` writes, and `unpickle`
on those bytes consumes them entirely and restores every serialized field —
`received_message`, `alice_identity_key.id`, `alice_identity_key.key`,
`alice_base_key`, `bob_one_time_key_id` and the ratchet's persistent state —
with only the transient (unserialized) `last_error` fields retained from the
session value being populated. -/
theorem pickle_roundtrip (S S0 : Session) (h : SessionWF S) :
    pickle_length S = (pickle S).length ∧
    unpickle (pickle S) S0 =
      some ({ S0 with
                received_message := S.received_message
                alice_identity_key := S.alice_identity_key
                alice_base_key := S.alice_base_key
                bob_one_time_key_id := S.bob_one_time_key_id
                ratchet := { S.ratchet with last_error := S0.ratchet.last_error } },
            []) :=
  ⟨pickle_length_spec S h, unpickle_pickle S S0 h⟩

/-- C9 (amended): a session operation that completes successfully leaves
`last_error` untouched rather than clearing it: after any successful
new_outbound_session, new_inbound_session, encrypt, decrypt or
decrypt_max_plaintext_length call, `last_error` equals its value from before
the call. -/
theorem success_preserves_last_error (s : Session) (acctO acctI : Account)
    (idk : Curve25519PublicKey) (otk : RemoteKey)
    (random msg p r m : List Nat) (t : MessageType) (l ml : Nat) :
    ((s.new_outbound_session acctO idk otk random).2.1 ≠ SIZE_MAX →
      (s.new_outbound_session acctO idk otk random).1.last_error = s.last_error) ∧
    ((s.new_inbound_session acctI msg).2.1 ≠ SIZE_MAX →
      (s.new_inbound_session acctI msg).1.last_error = s.last_error) ∧
    ((s.encrypt p r l).2.1 ≠ SIZE_MAX →
      (s.encrypt p r l).1.last_error = s.last_error) ∧
    ((s.decrypt t m ml).2 ≠ SIZE_MAX →
      (s.decrypt t m ml).1.last_error = s.last_error) ∧
    ((s.decrypt_max_plaintext_length t m).2 ≠ SIZE_MAX →
      (s.decrypt_max_plaintext_length t m).1.last_error = s.last_error) := by
  refine ⟨?_, ?_, ?_, ?_, ?_⟩
  · unfold Session.new_outbound_session
    split
    · intro hh; exact absurd rfl hh
    · intro _; rfl
  · unfold Session.new_inbound_session
    dsimp only
    split
    · intro hh; exact absurd rfl hh
    · split
      · intro hh; exact absurd rfl hh
      · split
        · intro hh; exact absurd rfl hh
        · intro _; rfl
  · unfold Session.encrypt
    split
    · intro hh; exact absurd rfl hh
    · dsimp only
      split
      · intro hh; exact absurd rfl hh
      · intro _; rfl
  · unfold Session.decrypt
    dsimp only
    split
    · intro hh; exact absurd rfl hh
    · split
      · intro hh; exact absurd rfl hh
      · intro _; rfl
  · unfold Session.decrypt_max_plaintext_length
    dsimp only
    split
    · intro hh; exact absurd rfl hh
    · split
      · intro hh; exact absurd rfl hh
      · intro _; rfl

theorem zero_ne_size_max : (0 : Nat) ≠ SIZE_MAX := by decide

theorem format_ne_keyid :
    ErrorCode.BAD_MESSAGE_FORMAT ≠ ErrorCode.BAD_MESSAGE_KEY_ID := by decide

theorem keyid_ne_format :
    ErrorCode.BAD_MESSAGE_KEY_ID ≠ ErrorCode.BAD_MESSAGE_FORMAT := by decide

/-- C4 (amended): every session operation that returns an error leaves the
session state unchanged apart from `last_error`, with two exceptions —
encrypt/decrypt/decrypt_max calls that already invoked the ratchet may
leave the embedded ratchet changed, and `new_inbound_session` failing with
BAD_MESSAGE_KEY_ID has already overwritten the three handshake identifiers
with the envelope's values.  Concretely: a failing `new_outbound_session`
changes only `last_error`; every failing `new_inbound_session` leaves
`received_message` and the ratchet unchanged, both of its
BAD_MESSAGE_FORMAT paths (malformed envelope, and missing or wrong-length
inner ratchet key) change only `last_error`, and its BAD_MESSAGE_KEY_ID
path additionally sets exactly the three identifiers; the short-buffer path
of `encrypt` and the prekey-decode-failure paths of `decrypt` and
`decrypt_max_plaintext_length` change only `last_error`; every failing
`encrypt`/`decrypt` leaves `received_message` and the three identifiers
unchanged; `decrypt_max_plaintext_length` never touches anything besides
`last_error` and the ratchet; `matches_inbound_session` cannot fail and
returns the session unchanged. -/
theorem inbound_error_state (s : Session) (acctO acctI : Account)
    (idk : Curve25519PublicKey) (otk : RemoteKey)
    (random msg p r m mm : List Nat) (t : MessageType) (l ml : Nat) :
    ((s.new_outbound_session acctO idk otk random).2.1 = SIZE_MAX →
      (s.new_outbound_session acctO idk otk random).1 =
        { s with last_error := ErrorCode.NOT_ENOUGH_RANDOM }) ∧
    ((s.new_inbound_session acctI msg).2.1 = SIZE_MAX →
      (s.new_inbound_session acctI msg).1.received_message = s.received_message ∧
      (s.new_inbound_session acctI msg).1.ratchet = s.ratchet) ∧
    ((s.new_inbound_session acctI msg).2.1 = SIZE_MAX ∧
     (s.new_inbound_session acctI msg).1.last_error = ErrorCode.BAD_MESSAGE_FORMAT →
      (s.new_inbound_session acctI msg).1 =
        { s with last_error := ErrorCode.BAD_MESSAGE_FORMAT }) ∧
    ((s.new_inbound_session acctI msg).2.1 = SIZE_MAX ∧
     (s.new_inbound_session acctI msg).1.last_error = ErrorCode.BAD_MESSAGE_KEY_ID →
      (s.new_inbound_session acctI msg).1 =
        { s with
            alice_identity_key := { s.alice_identity_key with key :=
              { public_key :=
                  (decode_one_time_key_message msg).identity_key.getD [] } }
            alice_base_key :=
              { public_key := (decode_one_time_key_message msg).base_key.getD [] }
            bob_one_time_key_id :=
              (decode_one_time_key_message msg).one_time_key_id
            last_error := ErrorCode.BAD_MESSAGE_KEY_ID }) ∧
    (l < s.encrypt_message_length p.length →
      (s.encrypt p r l).1 =
        { s with last_error := ErrorCode.OUTPUT_BUFFER_TOO_SMALL }) ∧
    ((s.encrypt p r l).2.1 = SIZE_MAX →
      (s.encrypt p r l).1.received_message = s.received_message ∧
      (s.encrypt p r l).1.alice_identity_key = s.alice_identity_key ∧
      (s.encrypt p r l).1.alice_base_key = s.alice_base_key ∧
      (s.encrypt p r l).1.bob_one_time_key_id = s.bob_one_time_key_id) ∧
    (t = MessageType.PRE_KEY → (decode_one_time_key_message m).message = none →
      (s.decrypt t m ml).1 = { s with last_error := ErrorCode.BAD_MESSAGE_FORMAT } ∧
      (s.decrypt t m ml).2 = SIZE_MAX) ∧
    ((s.decrypt t m ml).2 = SIZE_MAX →
      (s.decrypt t m ml).1.received_message = s.received_message ∧
      (s.decrypt t m ml).1.alice_identity_key = s.alice_identity_key ∧
      (s.decrypt t m ml).1.alice_base_key = s.alice_base_key ∧
      (s.decrypt t m ml).1.bob_one_time_key_id = s.bob_one_time_key_id) ∧
    (t = MessageType.PRE_KEY → (decode_one_time_key_message m).message = none →
      (s.decrypt_max_plaintext_length t m).1 =
        { s with last_error := ErrorCode.BAD_MESSAGE_FORMAT }) ∧
    ((s.decrypt_max_plaintext_length t m).1.received_message = s.received_message ∧
     (s.decrypt_max_plaintext_length t m).1.alice_identity_key = s.alice_identity_key ∧
     (s.decrypt_max_plaintext_length t m).1.alice_base_key = s.alice_base_key ∧
     (s.decrypt_max_plaintext_length t m).1.bob_one_time_key_id =
       s.bob_one_time_key_id) ∧
    (s.matches_inbound_session mm).1 = s := by
  refine ⟨?_, ?_, ?_, ?_, ?_, ?_, ?_, ?_, ?_, ?_, ?_⟩
  · unfold Session.new_outbound_session
    split
    · intro _; rfl
    · intro hh; exact absurd hh zero_ne_size_max
  · unfold Session.new_inbound_session
    dsimp only
    split
    · intro _; exact ⟨rfl, rfl⟩
    · split
      · intro _; exact ⟨rfl, rfl⟩
      · split
        · intro _; exact ⟨rfl, rfl⟩
        · intro hh; exact absurd hh zero_ne_size_max
  · unfold Session.new_inbound_session
    dsimp only
    split
    · intro _; rfl
    · split
      · intro _; rfl
      · split
        · intro hcon; exact absurd hcon.2 keyid_ne_format
        · intro hcon; exact absurd hcon.1 zero_ne_size_max
  · unfold Session.new_inbound_session
    dsimp only
    split
    · intro hcon; exact absurd hcon.2 format_ne_keyid
    · split
      · intro hcon; exact absurd hcon.2 format_ne_keyid
      · split
        · intro _; rfl
        · intro hcon; exact absurd hcon.1 zero_ne_size_max
  · intro h
    unfold Session.encrypt
    rw [if_pos h]
  · unfold Session.encrypt
    split
    · intro _; exact ⟨rfl, rfl, rfl, rfl⟩
    · dsimp only
      split
      · intro _; exact ⟨rfl, rfl, rfl, rfl⟩
      · next h2 => intro hh; exact absurd hh h2
  · intro ht hnone
    subst ht
    unfold Session.decrypt
    dsimp only
    rw [hnone]
    exact ⟨rfl, rfl⟩
  · unfold Session.decrypt
    cases t with
    | PRE_KEY =>
      dsimp only
      split
      · intro _; exact ⟨rfl, rfl, rfl, rfl⟩
      · split
        · intro _; exact ⟨rfl, rfl, rfl, rfl⟩
        · next h2 => intro hh; exact absurd hh h2
    | MESSAGE =>
      dsimp only
      split
      · intro _; exact ⟨rfl, rfl, rfl, rfl⟩
      · next h2 => intro hh; exact absurd hh h2
  · intro ht hnone
    subst ht
    unfold Session.decrypt_max_plaintext_length
    dsimp only
    rw [hnone]
  · unfold Session.decrypt_max_plaintext_length
    cases t with
    | PRE_KEY =>
      dsimp only
      split
      · exact ⟨rfl, rfl, rfl, rfl⟩
      · split
        · exact ⟨rfl, rfl, rfl, rfl⟩
        · exact ⟨rfl, rfl, rfl, rfl⟩
    | MESSAGE =>
      dsimp only
      split
      · exact ⟨rfl, rfl, rfl, rfl⟩
      · exact ⟨rfl, rfl, rfl, rfl⟩
  · unfold Session.matches_inbound_session
    dsimp only
    split <;> rfl

/-- C4 counterexample: a `new_inbound_session` call that fails with
`BAD_MESSAGE_KEY_ID` has already overwritten `alice_identity_key.key`,
`alice_base_key` and `bob_one_time_key_id`, refuting the claim that they
are left unmodified. -/
theorem inbound_keyid_modifies_cex :
    (sampleSession.new_inbound_session sampleAccount m4).2.1 = SIZE_MAX ∧
    (sampleSession.new_inbound_session sampleAccount m4).1.last_error =
      ErrorCode.BAD_MESSAGE_KEY_ID ∧
    (sampleSession.new_inbound_session sampleAccount m4).1.alice_identity_key.key ≠
      sampleSession.alice_identity_key.key ∧
    (sampleSession.new_inbound_session sampleAccount m4).1.alice_base_key ≠
      sampleSession.alice_base_key ∧
    (sampleSession.new_inbound_session sampleAccount m4).1.bob_one_time_key_id ≠
      sampleSession.bob_one_time_key_id := by
  decide

/-- Witness for the amended C4: concrete error calls of every operation —
a short-randomness outbound, an inbound on a malformed envelope, an inbound
on a well-formed envelope with a bad inner ratchet key, an inbound hitting
BAD_MESSAGE_KEY_ID, a short-buffer encrypt, a prekey decrypt and
decrypt_max on undecodable bytes, and a matching query. -/
theorem inbound_error_state_w :
    (sampleSession.new_outbound_session sampleAccount samplePub sampleRemote []).1 =
      { sampleSession with last_error := ErrorCode.NOT_ENOUGH_RANDOM } ∧
    ((sampleSession.new_inbound_session sampleAccount []).1.received_message =
        sampleSession.received_message ∧
      (sampleSession.new_inbound_session sampleAccount []).1.ratchet =
        sampleSession.ratchet) ∧
    (sampleSession.new_inbound_session sampleAccount []).1 =
      { sampleSession with last_error := ErrorCode.BAD_MESSAGE_FORMAT } ∧
    (sampleSession.new_inbound_session sampleAccount m4b).1 =
      { sampleSession with last_error := ErrorCode.BAD_MESSAGE_FORMAT } ∧
    (sampleSession.new_inbound_session sampleAccount m4).1 =
      { sampleSession with
          alice_identity_key := { sampleSession.alice_identity_key with key :=
            { public_key := (decode_one_time_key_message m4).identity_key.getD [] } }
          alice_base_key :=
            { public_key := (decode_one_time_key_message m4).base_key.getD [] }
          bob_one_time_key_id := (decode_one_time_key_message m4).one_time_key_id
          last_error := ErrorCode.BAD_MESSAGE_KEY_ID } ∧
    (sampleSession.encrypt [] r32 0).1 =
      { sampleSession with last_error := ErrorCode.OUTPUT_BUFFER_TOO_SMALL } ∧
    ((sampleSession.encrypt [] r32 0).1.received_message =
        sampleSession.received_message ∧
      (sampleSession.encrypt [] r32 0).1.alice_identity_key =
        sampleSession.alice_identity_key ∧
      (sampleSession.encrypt [] r32 0).1.alice_base_key =
        sampleSession.alice_base_key ∧
      (sampleSession.encrypt [] r32 0).1.bob_one_time_key_id =
        sampleSession.bob_one_time_key_id) ∧
    ((sampleSession.decrypt MessageType.PRE_KEY [] 100).1 =
        { sampleSession with last_error := ErrorCode.BAD_MESSAGE_FORMAT } ∧
      (sampleSession.decrypt MessageType.PRE_KEY [] 100).2 = SIZE_MAX) ∧
    ((sampleSession.decrypt MessageType.PRE_KEY [] 100).1.received_message =
        sampleSession.received_message ∧
      (sampleSession.decrypt MessageType.PRE_KEY [] 100).1.alice_identity_key =
        sampleSession.alice_identity_key ∧
      (sampleSession.decrypt MessageType.PRE_KEY [] 100).1.alice_base_key =
        sampleSession.alice_base_key ∧
      (sampleSession.decrypt MessageType.PRE_KEY [] 100).1.bob_one_time_key_id =
        sampleSession.bob_one_time_key_id) ∧
    (sampleSession.decrypt_max_plaintext_length MessageType.PRE_KEY []).1 =
      { sampleSession with last_error := ErrorCode.BAD_MESSAGE_FORMAT } ∧
    ((sampleSession.decrypt_max_plaintext_length MessageType.PRE_KEY []).1.received_message =
        sampleSession.received_message ∧
      (sampleSession.decrypt_max_plaintext_length MessageType.PRE_KEY []).1.alice_identity_key =
        sampleSession.alice_identity_key ∧
      (sampleSession.decrypt_max_plaintext_length MessageType.PRE_KEY []).1.alice_base_key =
        sampleSession.alice_base_key ∧
      (sampleSession.decrypt_max_plaintext_length MessageType.PRE_KEY []).1.bob_one_time_key_id =
        sampleSession.bob_one_time_key_id) ∧
    (sampleSession.matches_inbound_session m6).1 = sampleSession := by
  have T1 := inbound_error_state sampleSession sampleAccount sampleAccount samplePub
    sampleRemote [] [] [] r32 [] m6 MessageType.PRE_KEY 0 100
  have T2 := inbound_error_state sampleSession sampleAccount sampleAccount samplePub
    sampleRemote [] m4 [] r32 [] m6 MessageType.PRE_KEY 0 100
  have T3 := inbound_error_state sampleSession sampleAccount sampleAccount samplePub
    sampleRemote [] m4b [] r32 [] m6 MessageType.PRE_KEY 0 100
  exact ⟨T1.1 (by decide),
         T1.2.1 (by decide),
         T1.2.2.1 ⟨by decide, by decide⟩,
         T3.2.2.1 ⟨by decide, by decide⟩,
         T2.2.2.2.1 ⟨by decide, by decide⟩,
         T1.2.2.2.2.1 (by decide),
         T1.2.2.2.2.2.1 (by decide),
         T1.2.2.2.2.2.2.1 rfl (by decide),
         T1.2.2.2.2.2.2.2.1 (by decide),
         T1.2.2.2.2.2.2.2.2.1 rfl (by decide),
         T1.2.2.2.2.2.2.2.2.2.1,
         T1.2.2.2.2.2.2.2.2.2.2⟩

/-- C9 counterexample: a successful decrypt call leaves the previously
recorded `BAD_MESSAGE_MAC` in `last_error` instead of clearing it to
`SUCCESS`. -/
theorem success_keeps_last_error_cex :
    (sampleSession.decrypt MessageType.MESSAGE m9 100).2 ≠ SIZE_MAX ∧
    (sampleSession.decrypt MessageType.MESSAGE m9 100).1.last_error ≠
      ErrorCode.SUCCESS := by
  decide

/-- Witness for the amended C9: concrete successful calls of all five
operations, each leaving `last_error` exactly as it was. -/
theorem success_preserves_last_error_w :
    (sampleSession.new_outbound_session sampleAccount samplePub sampleRemote r64).1.last_error =
      sampleSession.last_error ∧
    (sampleSession.new_inbound_session acctWithKey m4).1.last_error =
      sampleSession.last_error ∧
    (sampleSession.encrypt [] r32 100).1.last_error = sampleSession.last_error ∧
    (sampleSession.decrypt MessageType.MESSAGE m9 100).1.last_error =
      sampleSession.last_error ∧
    (sampleSession.decrypt_max_plaintext_length MessageType.MESSAGE m9).1.last_error =
      sampleSession.last_error := by
  have T := success_preserves_last_error sampleSession sampleAccount acctWithKey
    samplePub sampleRemote r64 m4 [] r32 m9 MessageType.MESSAGE 100 100
  exact ⟨T.1 (by decide), T.2.1 (by decide), T.2.2.1 (by decide),
         T.2.2.2.1 (by decide), T.2.2.2.2 (by decide)⟩

/-- C10: evaluating the code at a successful inbound initiation — the call
completes (returns 0) having zeroised no secret buffer at all, leaving the
96-byte shared secret uncleared, whereas a successful outbound initiation
zeroises its base key, ratchet key and shared secret. -/
theorem inbound_no_zeroise_cex :
    (sampleSession.new_inbound_session acctWithKey m4).2.1 = 0 ∧
    (sampleSession.new_inbound_session acctWithKey m4).2.2 = [] ∧
    (sampleSession.new_outbound_session sampleAccount samplePub sampleRemote r64).2.2 =
      [SecretBuf.base_key, SecretBuf.ratchet_key, SecretBuf.shared_secret] := by
  decide

/-- Witness for C5 at a concrete session with empty randomness. -/
theorem new_outbound_short_random_w :
    (sampleSession.new_outbound_session sampleAccount samplePub sampleRemote []).2.1 =
      SIZE_MAX ∧
    (sampleSession.new_outbound_session sampleAccount samplePub sampleRemote []).1 =
      { sampleSession with last_error := ErrorCode.NOT_ENOUGH_RANDOM } :=
  new_outbound_short_random sampleSession sampleAccount samplePub sampleRemote []
    (by decide)

/-- Witness for C7 at a concrete session with a zero-length output buffer. -/
theorem encrypt_short_buffer_w :
    (sampleSession.encrypt [] r32 0).2.1 = SIZE_MAX ∧
    (sampleSession.encrypt [] r32 0).1 =
      { sampleSession with last_error := ErrorCode.OUTPUT_BUFFER_TOO_SMALL } :=
  encrypt_short_buffer sampleSession [] r32 0 (by decide)

/-- Witness for C6: the matching equivalence at a concrete well-formed
message and the false return at a concrete malformed one. -/
theorem matches_inbound_session_spec_w :
    ((sampleSession.matches_inbound_session m6).2 = true ↔
      (decode_one_time_key_message m6).identity_key.getD [] =
          sampleSession.alice_identity_key.key.public_key ∧
      (decode_one_time_key_message m6).base_key.getD [] =
          sampleSession.alice_base_key.public_key ∧
      (decode_one_time_key_message m6).one_time_key_id =
          sampleSession.bob_one_time_key_id) ∧
    (sampleSession.matches_inbound_session []).2 = false :=
  ⟨(matches_inbound_session_spec sampleSession m6).2.2 (by decide),
   (matches_inbound_session_spec sampleSession []).2.1 (by decide)⟩

/-- Witness for C3 at a concrete well-formed session. -/
theorem pickle_roundtrip_w :
    pickle_length sampleSession = (pickle sampleSession).length ∧
    unpickle (pickle sampleSession) sampleSession0 =
      some ({ sampleSession0 with
                received_message := sampleSession.received_message
                alice_identity_key := sampleSession.alice_identity_key
                alice_base_key := sampleSession.alice_base_key
                bob_one_time_key_id := sampleSession.bob_one_time_key_id
                ratchet := { sampleSession.ratchet with
                              last_error := sampleSession0.ratchet.last_error } },
            []) :=
  pickle_roundtrip sampleSession sampleSession0 (by decide)

theorem pub_mk_eta (k : Curve25519PublicKey) :
    ({ public_key := k.public_key } : Curve25519PublicKey) = k := rfl

theorem new_inbound_session_run (s : Session) (acct : Account) (otid : Nat)
    (base ident rk inner_ct : List Nat) (bot : LocalKey)
    (hbase : base.length = 32) (hident : ident.length = 32) (hrk : rk.length = 32)
    (hlook : acct.lookup_key otid = some bot) :
    s.new_inbound_session acct
      (encode_one_time_key_message PROTOCOL_VERSION otid base ident
        (encode_message rk inner_ct)) =
      ({ s with
           alice_identity_key := { s.alice_identity_key with
             key := { public_key := ident } }
           alice_base_key := { public_key := base }
           bob_one_time_key_id := otid
           ratchet := s.ratchet.initialise_as_bob
             (curve25519_shared_secret bot.key { public_key := ident } ++
              curve25519_shared_secret acct.identity_key.key { public_key := base } ++
              curve25519_shared_secret bot.key { public_key := base }) 96
             { public_key := rk } },
       0, []) := by
  have hcheck : check_message_fields
      { version := PROTOCOL_VERSION, one_time_key_id := otid
        has_one_time_key_id := true, identity_key := some ident
        base_key := some base, message := some (encode_message rk inner_ct) } = true := by
    simp [check_message_fields, KEY_LENGTH, hident, hbase]
  unfold Session.new_inbound_session
  rw [decode_encode]
  dsimp only
  rw [if_neg (by simp [hcheck])]
  rw [show (some (encode_message rk inner_ct)).getD [] = encode_message rk inner_ct
        from rfl]
  rw [decode_message_encode_message]
  rw [if_neg (by simp [hrk, KEY_LENGTH])]
  dsimp only
  rw [hlook]
  rfl

/-- C1: outbound initiation concatenates DH(local identity private, remote
one-time public), DH(base private, remote identity public), DH(base private,
remote one-time public) into bytes 0..32, 32..64, 64..96 of the handshake
secret and initialises the ratchet as Alice; inbound initiation on a prekey
envelope carrying the recorded base and identity keys computes the mirrored
concatenation DH(one-time private, alice identity public), DH(local identity
private, alice base public), DH(one-time private, alice base public) and
initialises the ratchet as Bob; for corresponding key material the two
96-byte secrets are byte-identical. -/
theorem triple_dh_interop (sA0 sB0 : Session) (acctA acctB : Account)
    (bot : LocalKey) (random rk inner_ct : List Nat)
    (hA : wfPair acctA.identity_key.key)
    (hB : wfPair acctB.identity_key.key)
    (hT : wfPair bot.key)
    (hrand : 64 ≤ random.length)
    (hlook : acctB.lookup_key bot.id = some bot)
    (hrk : rk.length = 32) :
    (sA0.new_outbound_session acctA acctB.identity_key.key.toCurve25519PublicKey
        { id := bot.id, key := bot.key.toCurve25519PublicKey } random).2.1 = 0 ∧
    (sA0.new_outbound_session acctA acctB.identity_key.key.toCurve25519PublicKey
        { id := bot.id, key := bot.key.toCurve25519PublicKey } random).1.alice_base_key.public_key =
      (generate_key random).public_key ∧
    (sA0.new_outbound_session acctA acctB.identity_key.key.toCurve25519PublicKey
        { id := bot.id, key := bot.key.toCurve25519PublicKey } random).1.alice_identity_key.key.public_key =
      acctA.identity_key.key.public_key ∧
    (sA0.new_outbound_session acctA acctB.identity_key.key.toCurve25519PublicKey
        { id := bot.id, key := bot.key.toCurve25519PublicKey } random).1.ratchet.role =
      RatchetRole.alice ∧
    (sA0.new_outbound_session acctA acctB.identity_key.key.toCurve25519PublicKey
        { id := bot.id, key := bot.key.toCurve25519PublicKey } random).1.ratchet.root_key =
      curve25519_shared_secret acctA.identity_key.key bot.key.toCurve25519PublicKey ++
      curve25519_shared_secret (generate_key random)
        acctB.identity_key.key.toCurve25519PublicKey ++
      curve25519_shared_secret (generate_key random) bot.key.toCurve25519PublicKey ∧
    (sB0.new_inbound_session acctB
        (encode_one_time_key_message PROTOCOL_VERSION bot.id
          (generate_key random).public_key acctA.identity_key.key.public_key
          (encode_message rk inner_ct))).2.1 = 0 ∧
    (sB0.new_inbound_session acctB
        (encode_one_time_key_message PROTOCOL_VERSION bot.id
          (generate_key random).public_key acctA.identity_key.key.public_key
          (encode_message rk inner_ct))).1.ratchet.role = RatchetRole.bob ∧
    (sB0.new_inbound_session acctB
        (encode_one_time_key_message PROTOCOL_VERSION bot.id
          (generate_key random).public_key acctA.identity_key.key.public_key
          (encode_message rk inner_ct))).1.ratchet.root_key =
      curve25519_shared_secret bot.key acctA.identity_key.key.toCurve25519PublicKey ++
      curve25519_shared_secret acctB.identity_key.key
        (generate_key random).toCurve25519PublicKey ++
      curve25519_shared_secret bot.key (generate_key random).toCurve25519PublicKey ∧
    (sB0.new_inbound_session acctB
        (encode_one_time_key_message PROTOCOL_VERSION bot.id
          (generate_key random).public_key acctA.identity_key.key.public_key
          (encode_message rk inner_ct))).1.ratchet.root_key =
      (sA0.new_outbound_session acctA acctB.identity_key.key.toCurve25519PublicKey
        { id := bot.id, key := bot.key.toCurve25519PublicKey } random).1.ratchet.root_key := by
  have hbaseLen : (generate_key random).public_key.length = 32 := toBytesLE_length 32 _
  have hidentLen : acctA.identity_key.key.public_key.length = 32 := by
    rw [hA]; exact toBytesLE_length 32 _
  have hout := new_outbound_session_run sA0 acctA
    acctB.identity_key.key.toCurve25519PublicKey
    { id := bot.id, key := bot.key.toCurve25519PublicKey } random hrand
  have hin := new_inbound_session_run sB0 acctB bot.id
    (generate_key random).public_key acctA.identity_key.key.public_key rk inner_ct
    bot hbaseLen hidentLen hrk hlook
  refine ⟨?_, ?_, ?_, ?_, ?_, ?_, ?_, ?_, ?_⟩
  · rw [hout]
  · rw [hout]
  · rw [hout]
  · rw [hout]; rfl
  · rw [hout]
    exact triple_secret_take _ _ _ (shared_secret_length _ _)
      (shared_secret_length _ _) (shared_secret_length _ _)
  · rw [hin]
  · rw [hin]; rfl
  · rw [hin]
    exact triple_secret_take _ _ _ (shared_secret_length _ _)
      (shared_secret_length _ _) (shared_secret_length _ _)
  · rw [hin, hout]
    have c1 := shared_secret_comm bot.key acctA.identity_key.key hT hA
    have c2 := shared_secret_comm acctB.identity_key.key (generate_key random) hB
      (generate_key_wf random)
    have c3 := shared_secret_comm bot.key (generate_key random) hT
      (generate_key_wf random)
    exact congrArg (List.take 96)
      (by rw [pub_mk_eta acctA.identity_key.key.toCurve25519PublicKey,
              pub_mk_eta (generate_key random).toCurve25519PublicKey, c1, c2, c3])

/-- Witness for C1 at concrete accounts, keys and randomness. -/
theorem triple_dh_interop_w :
    (sampleSession0.new_outbound_session sampleAccount
        acctWithKey.identity_key.key.toCurve25519PublicKey
        { id := botW.id, key := botW.key.toCurve25519PublicKey } r64).2.1 = 0 ∧
    (sampleSession0.new_outbound_session sampleAccount
        acctWithKey.identity_key.key.toCurve25519PublicKey
        { id := botW.id, key := botW.key.toCurve25519PublicKey } r64).1.alice_base_key.public_key =
      (generate_key r64).public_key ∧
    (sampleSession0.new_outbound_session sampleAccount
        acctWithKey.identity_key.key.toCurve25519PublicKey
        { id := botW.id, key := botW.key.toCurve25519PublicKey } r64).1.alice_identity_key.key.public_key =
      sampleAccount.identity_key.key.public_key ∧
    (sampleSession0.new_outbound_session sampleAccount
        acctWithKey.identity_key.key.toCurve25519PublicKey
        { id := botW.id, key := botW.key.toCurve25519PublicKey } r64).1.ratchet.role =
      RatchetRole.alice ∧
    (sampleSession0.new_outbound_session sampleAccount
        acctWithKey.identity_key.key.toCurve25519PublicKey
        { id := botW.id, key := botW.key.toCurve25519PublicKey } r64).1.ratchet.root_key =
      curve25519_shared_secret sampleAccount.identity_key.key
        botW.key.toCurve25519PublicKey ++
      curve25519_shared_secret (generate_key r64)
        acctWithKey.identity_key.key.toCurve25519PublicKey ++
      curve25519_shared_secret (generate_key r64) botW.key.toCurve25519PublicKey ∧
    (sampleSession0.new_inbound_session acctWithKey
        (encode_one_time_key_message PROTOCOL_VERSION botW.id
          (generate_key r64).public_key sampleAccount.identity_key.key.public_key
          (encode_message bytesA []))).2.1 = 0 ∧
    (sampleSession0.new_inbound_session acctWithKey
        (encode_one_time_key_message PROTOCOL_VERSION botW.id
          (generate_key r64).public_key sampleAccount.identity_key.key.public_key
          (encode_message bytesA []))).1.ratchet.role = RatchetRole.bob ∧
    (sampleSession0.new_inbound_session acctWithKey
        (encode_one_time_key_message PROTOCOL_VERSION botW.id
          (generate_key r64).public_key sampleAccount.identity_key.key.public_key
          (encode_message bytesA []))).1.ratchet.root_key =
      curve25519_shared_secret botW.key
        sampleAccount.identity_key.key.toCurve25519PublicKey ++
      curve25519_shared_secret acctWithKey.identity_key.key
        (generate_key r64).toCurve25519PublicKey ++
      curve25519_shared_secret botW.key (generate_key r64).toCurve25519PublicKey ∧
    (sampleSession0.new_inbound_session acctWithKey
        (encode_one_time_key_message PROTOCOL_VERSION botW.id
          (generate_key r64).public_key sampleAccount.identity_key.key.public_key
          (encode_message bytesA []))).1.ratchet.root_key =
      (sampleSession0.new_outbound_session sampleAccount
        acctWithKey.identity_key.key.toCurve25519PublicKey
        { id := botW.id, key := botW.key.toCurve25519PublicKey } r64).1.ratchet.root_key :=
  triple_dh_interop sampleSession0 sampleSession0 sampleAccount acctWithKey botW
    r64 bytesA [] (by decide) (by decide) (by decide) (by decide) (by decide)
    (by decide)

end olm

